import Mathlib

/-!
Shallow embedding of the tcs-overweight-api cache-refresh core (src/app.py,
with the older inline variant in src/unnamed/part_000).

Modelling conventions:
* JSON dictionaries that preserve insertion order (Python `dict`) are embedded
  as association lists `List (Key × v)`; a key absent from the dict is `none`
  in an `Option` field.
* Numeric row values are embedded as `Rat`: the program never performs
  arithmetic on them (it only copies them around), so exact rationals are a
  faithful carrier for the decimal literals involved.
* `week_start` is embedded as the already-formatted string the code produces
  (`strftime("%Y-%m-%d")` / `str`), since no claim depends on date formatting.
-/

set_option autoImplicit false

namespace TcsOverweight

/-- Product keys are strings (`product` column of the query). -/
abbrev Key := String

/-- The fixed durable snapshot path, app.py line 19. -/
def CACHE_FILE : String := "/tmp/overweight_cache.json"

/-- One raw row as fetched from the warehouse cursor, app.py line 76:
`week_start, product, avg_ow, avg_val, avg_tgt, count = row`.
The three averages and the count may be SQL NULL (`none`). -/
structure Row where
  week_start : String
  product : String
  avg_overweight : Option Rat
  avg_value : Option Rat
  avg_target : Option Rat
  count : Option Int
  deriving DecidableEq, Repr

/-- One aggregated sample dict appended at app.py lines 80-86.  The three
averages are null-coerced floats; `count` is copied verbatim, so it stays
optional. -/
structure Entry where
  week_start : String
  avg_overweight : Rat
  avg_value : Rat
  avg_target : Rat
  count : Option Int
  deriving DecidableEq, Repr

/-- Null coercion of app.py lines 82-84:
`float(avg_ow) if avg_ow is not None else 0`. -/
def coerceNum (o : Option Rat) : Rat :=
  match o with
  | some x => x
  | none => 0

/-- The per-row dict built at app.py lines 80-86.  Note that `count` (line 85)
is copied without any null coercion, unlike the three averages. -/
def rowEntry (r : Row) : Entry :=
  { week_start := r.week_start
    avg_overweight := coerceNum r.avg_overweight
    avg_value := coerceNum r.avg_value
    avg_target := coerceNum r.avg_target
    count := r.count }

/-- Python `str.strip()` with no argument (app.py line 77): remove leading
and trailing whitespace.  Embedded structurally over the character list so
it evaluates in the kernel; `Char.isWhitespace` covers the ASCII whitespace
relevant to the product keys involved. -/
def pyStrip (s : String) : String :=
  ⟨((s.data.dropWhile Char.isWhitespace).reverse.dropWhile
      Char.isWhitespace).reverse⟩

/-- A `ProductSeries` mapping: Python `dict` from trimmed product key to the
list of entries, in insertion order. -/
abbrev Series := List (Key × List Entry)

/-- One step of the grouping loop, app.py lines 78-86: if the key is absent
append a fresh singleton group at the end (Python dict insertion order),
otherwise append the entry at the end of the existing group's list. -/
def insertRow (data : Series) (k : Key) (e : Entry) : Series :=
  match data with
  | [] => [(k, [e])]
  | (k', es) :: rest =>
      if k' = k then (k', es ++ [e]) :: rest
      else (k', es) :: insertRow rest k e

/-- The aggregation loop of app.py lines 74-86 (identical grouping in
src/unnamed/part_000 lines 60-72): group by `product.strip()`, appending
entries in input order, starting from the empty dict. -/
def aggregate (rows : List Row) : Series :=
  rows.foldl (fun data r => insertRow data (pyStrip r.product) (rowEntry r)) []

/-- First-match lookup of a key's series in the association-list dict. -/
def lookupSeries : Series → Key → List Entry
  | [], _ => []
  | (k', es) :: rest, k => if k' = k then es else lookupSeries rest k

/-- Cache status strings of app.py: `"initializing"` (line 23), `"ok"`
(line 95), `"stale"` (line 107), `"error"` (line 111). -/
inductive CacheStatus where
  | initializing
  | ok
  | stale
  | error
  deriving DecidableEq, Repr

/-- The string stored in the `status` key of the `_cache` dict. -/
def CacheStatus.toStr : CacheStatus → String
  | .initializing => "initializing"
  | .ok => "ok"
  | .stale => "stale"
  | .error => "error"

/-- The in-memory `_cache` dict of app.py.  `none` models both an absent key
and a JSON `null` value (the code only ever distinguishes them through
`.get`, which treats them alike, except for the mandatory `status` and
`data` keys which are always present after initialization). -/
structure Cache where
  data : Option Series
  refreshed_at : Option String
  product_count : Option Nat
  status : CacheStatus
  error : Option String
  deriving DecidableEq, Repr

/-- The initial `_cache`, app.py line 23:
`{"data": None, "refreshed_at": None, "status": "initializing"}`. -/
def cache0 : Cache :=
  { data := none, refreshed_at := none, product_count := none
    status := .initializing, error := none }

/-- A well-formed parse of the durable file: the shape `save` writes at
app.py line 92: `{"data": ..., "refreshed_at": ..., "product_count": ...}`. -/
structure Persisted where
  data : Series
  refreshed_at : String
  product_count : Nat
  deriving DecidableEq, Repr

/-- State of the durable snapshot file as observed by the fallback branch of
`refresh_cache` (app.py lines 103-111): absent, present-but-unparsable, or
parsed to a `Persisted` dict. -/
inductive FileState where
  | absent
  | corrupt
  | parsed (p : Persisted)
  deriving DecidableEq, Repr

/-- Outcome of the warehouse interaction and row processing inside the `try`
block before the save (app.py lines 67-86): either the fetched row list, or
an exception with message `msg` (connection, query, or row-processing
failure — all reach the same `except` handler). -/
inductive FetchResult where
  | ok (rows : List Row)
  | fail (msg : String)
  deriving DecidableEq, Repr

/-- One refresh cycle's environment: the outcomes of the external effects
`refresh_cache` performs.  `saveFails = some msg` means the file write at
app.py lines 91-92 raises with message `msg`; `file` is the durable file
state observed by the `except` handler; `now` is the timestamp string
computed at line 88. -/
structure Env where
  fetch : FetchResult
  saveFails : Option String
  file : FileState
  now : String
  deriving DecidableEq, Repr

/-- Observable events of one `refresh_cache` execution, in program order. -/
inductive Ev where
  | fetchAttempt
  | saveAttempt
  | saveDone
  | loadAttempt
  | setCache (c : Cache)
  | raiseCorrupt
  deriving DecidableEq, Repr

/-- How a `refresh_cache` call terminates: a normal return, or the
`json.load` exception of app.py line 105 propagating out of the function
(it is raised inside the `except` handler, outside any further `try`). -/
inductive Outcome where
  | returned
  | raisedCorrupt
  deriving DecidableEq, Repr

/-- The `except` handler of app.py lines 99-111.  `cache` is the in-memory
`_cache` on entry (left untouched when the handler itself raises), `msg` is
`str(e)` for the caught exception, `evs` the events emitted so far.
* File absent (line 109): `_cache = {"data": None, "refreshed_at": None,
  "status": "error", "error": str(e)}` (line 111).
* File present and parsing (lines 103-107): `_cache = {**cached,
  "status": "stale", "error": str(e)}`.
* File present but unparsable: `json.load` (line 105) raises and the
  exception escapes `refresh_cache`; `_cache` is not assigned. -/
def handleFailure (env : Env) (cache : Cache) (msg : String) (evs : List Ev) :
    Cache × List Ev × Outcome :=
  match env.file with
  | .absent =>
      let c : Cache :=
        { data := none, refreshed_at := none, product_count := none
          status := .error, error := some msg }
      (c, evs ++ [Ev.setCache c], .returned)
  | .corrupt =>
      (cache, evs ++ [Ev.loadAttempt, Ev.raiseCorrupt], .raisedCorrupt)
  | .parsed p =>
      let c : Cache :=
        { data := some p.data, refreshed_at := some p.refreshed_at
          product_count := some p.product_count
          status := .stale, error := some msg }
      (c, evs ++ [Ev.loadAttempt, Ev.setCache c], .returned)

/-- `refresh_cache` of app.py lines 63-111.  On a successful fetch the rows
are aggregated, the durable save is attempted (lines 91-92), and only then
is `_cache` replaced under the lock with the `Ok` snapshot (lines 94-95)
whose `product_count` is `len(data)`.  Any exception before or during the
save (a failed fetch, or a failing write) lands in the `except` handler. -/
def refresh_cache (env : Env) (cache : Cache) : Cache × List Ev × Outcome :=
  match env.fetch with
  | .fail msg => handleFailure env cache msg [Ev.fetchAttempt]
  | .ok rows =>
      let data := aggregate rows
      match env.saveFails with
      | some smsg =>
          handleFailure env cache smsg [Ev.fetchAttempt, Ev.saveAttempt]
      | none =>
          let c : Cache :=
            { data := some data, refreshed_at := some env.now
              product_count := some data.length
              status := .ok, error := none }
          (c, [Ev.fetchAttempt, Ev.saveAttempt, Ev.saveDone, Ev.setCache c],
            .returned)

/-- The HTTP response of the `/api/overweights` handler: status code plus the
fields jsonify serializes in each branch (app.py lines 133-151). -/
inductive Resp where
  | accepted (status message : String)
  | serverError (status message : String)
  | okResp (status : String) (refreshed_at : Option String)
      (product_count : Nat) (cache_status : String) (data : Option Series)
  deriving DecidableEq, Repr

/-- The HTTP status code of each response shape (202 / 500 / default 200). -/
def respCode : Resp → Nat
  | .accepted _ _ => 202
  | .serverError _ _ => 500
  | .okResp _ _ _ _ _ => 200

/-- The top-level `status` field of the JSON body, present in every branch. -/
def respTopStatus : Resp → String
  | .accepted s _ => s
  | .serverError s _ => s
  | .okResp s _ _ _ _ => s

/-- The `GET /api/overweights` handler, app.py lines 128-151, applied to the
snapshot copied out under the lock.
* `status == "initializing"` → 202 with a retry hint (lines 133-137);
* `status == "error" and cache.get("data") is None` → 500 with the recorded
  error message, defaulting to `"Unknown error"` (lines 139-143);
* otherwise → 200 with `{"status": "ok", "refreshed_at": ...,
  "product_count": cache.get("product_count", 0), "cache_status": ...,
  "data": ...}` (lines 145-151). -/
def overweights (c : Cache) : Resp :=
  if c.status = .initializing then
    .accepted "initializing"
      "Data is loading from Snowflake, please check back in 60 seconds."
  else if c.status = .error ∧ c.data = none then
    .serverError "error" (c.error.getD "Unknown error")
  else
    .okResp "ok" c.refreshed_at (c.product_count.getD 0) c.status.toStr c.data

/-- Primitive file-system operations relevant to the durable save.
`openTruncate` is `open(path, "w")` (truncates an existing file in place);
`writeChunk` appends serialized bytes to the opened file; `renameOver` is
the whole-file atomic replace primitive (e.g. `os.replace` of a completed
temp file), included so that its absence from the code's operation sequence
is expressible.  The code of app.py lines 91-92 emits only the first two. -/
inductive FsOp where
  | openTruncate (path : String)
  | writeChunk (path : String) (chunk : String)
  | renameOver (path : String) (content : String)
  deriving DecidableEq, Repr

/-- Whether an operation is the atomic whole-file replace. -/
def isRename : FsOp → Bool
  | .renameOver _ _ => true
  | _ => false

/-- Effect of one operation on the observable content of the target file. -/
def applyOp (content : String) : FsOp → String
  | .openTruncate _ => ""
  | .writeChunk _ chunk => content ++ chunk
  | .renameOver _ c => c

/-- The operation sequence performed by the save of app.py lines 91-92:
`with open(CACHE_FILE, "w") as f: json.dump(payload, f)` — truncate the
target file in place, then write the serialized payload into it. -/
def save_ops (payload : String) : List FsOp :=
  [FsOp.openTruncate CACHE_FILE, FsOp.writeChunk CACHE_FILE payload]

/-- The sequence of file contents observable by a concurrent or post-crash
reader: the content before the sequence runs, then after each operation. -/
def observableStates (old : String) : List FsOp → List String
  | [] => [old]
  | op :: ops => old :: observableStates (applyOp old op) ops

/-- A write is atomic with respect to readers when every observable content
is either the old file or the completed new file. -/
def atomicWrt (old new : String) (states : List String) : Prop :=
  ∀ s ∈ states, s = old ∨ s = new

/-- Temporal property of one refresh trace: any in-memory installation of a
snapshot whose status is `Ok` is preceded by a completed durable save. -/
def saveBeforeOkSet (evs : List Ev) : Prop :=
  ∀ (i : Nat) (c : Cache),
    evs[i]? = some (Ev.setCache c) → c.status = CacheStatus.ok →
    ∃ j : Nat, j < i ∧ evs[j]? = some Ev.saveDone

/-- The first row of the spec's grouping scenario:
`(2024-01-01, "Bacon ", 1.2, 50.2, 49.0, 10)`. -/
def baconRow1 : Row :=
  { week_start := "2024-01-01", product := "Bacon "
    avg_overweight := some 1.2, avg_value := some 50.2
    avg_target := some 49.0, count := some 10 }

/-- The second row of the spec's grouping scenario:
`(2024-01-01, "Bacon", 0.8, 49.8, 49.0, 8)`. -/
def baconRow2 : Row :=
  { week_start := "2024-01-01", product := "Bacon"
    avg_overweight := some 0.8, avg_value := some 49.8
    avg_target := some 49.0, count := some 8 }

/-- The aggregated entry the first scenario row produces. -/
def entryB1 : Entry :=
  { week_start := "2024-01-01", avg_overweight := 1.2
    avg_value := 50.2, avg_target := 49.0, count := some 10 }

/-- The aggregated entry the second scenario row produces. -/
def entryB2 : Entry :=
  { week_start := "2024-01-01", avg_overweight := 0.8
    avg_value := 49.8, avg_target := 49.0, count := some 8 }

/-- A row whose numeric fields are all SQL NULL. -/
def nullRow : Row :=
  { week_start := "2024-01-01", product := "Bacon"
    avg_overweight := none, avg_value := none
    avg_target := none, count := none }

/-- A concrete well-formed persisted snapshot with an empty series. -/
def pEmpty : Persisted :=
  { data := [], refreshed_at := "2024-01-01T00:00:00Z", product_count := 0 }

/-- Environment: fetch fails, durable file present and parsing. -/
def envC1 : Env :=
  { fetch := .fail "boom", saveFails := none
    file := .parsed pEmpty, now := "t" }

/-- Environment: fetch fails, durable file absent. -/
def envC2 : Env :=
  { fetch := .fail "conn refused", saveFails := none
    file := .absent, now := "t" }

/-- Environment: fetch succeeds with one row, but the durable save raises;
the durable file (from an earlier cycle) parses to the empty series. -/
def envC3 : Env :=
  { fetch := .ok [baconRow1], saveFails := some "disk full"
    file := .parsed pEmpty, now := "2024-06-01T00:00:00Z" }

/-- Environment: a fully successful cycle with one row. -/
def envC4 : Env :=
  { fetch := .ok [baconRow1], saveFails := none
    file := .absent, now := "2024-06-01T00:00:00Z" }

/-- Environment: fetch fails and the durable file is present but corrupt. -/
def envC5 : Env :=
  { fetch := .fail "boom", saveFails := none
    file := .corrupt, now := "t" }

/-- A stale in-memory snapshot, as installed by the fallback path. -/
def staleCache : Cache :=
  { data := some [], refreshed_at := some "2024-01-01T00:00:00Z"
    product_count := some 0, status := .stale, error := some "boom" }

/-! ## Helper lemmas -/

theorem lookupSeries_insertRow (data : Series) (k0 k : Key) (e : Entry) :
    lookupSeries (insertRow data k0 e) k =
      if k0 = k then lookupSeries data k ++ [e] else lookupSeries data k := by
  induction data with
  | nil =>
      by_cases h : k0 = k <;> simp [insertRow, lookupSeries, h]
  | cons hd tl ih =>
      obtain ⟨k', es⟩ := hd
      by_cases h1 : k' = k0
      · subst h1
        by_cases h2 : k' = k <;> simp [insertRow, lookupSeries, h2]
      · by_cases h2 : k' = k
        · have hk : ¬ k0 = k := fun h => h1 (h2.trans h.symm)
          have hk2 : ¬ k = k0 := fun h => h1 (h2.trans h)
          simp [insertRow, lookupSeries, h1, h2, hk, hk2]
        · simp [insertRow, lookupSeries, h1, h2, ih]

theorem lookupSeries_foldl (rows : List Row) (data : Series) (k : Key) :
    lookupSeries
        (rows.foldl (fun d r => insertRow d (pyStrip r.product) (rowEntry r)) data) k =
      lookupSeries data k ++
        (rows.filter (fun r => pyStrip r.product == k)).map rowEntry := by
  induction rows generalizing data with
  | nil => simp
  | cons r rs ih =>
      rw [List.foldl_cons, ih, lookupSeries_insertRow]
      by_cases h : pyStrip r.product = k
      · simp [h, List.filter_cons]
      · simp [h, List.filter_cons]

theorem saveBeforeOkSet_of_no_okSet (evs : List Ev)
    (h : ∀ c, Ev.setCache c ∈ evs → ¬ c.status = CacheStatus.ok) :
    saveBeforeOkSet evs :=
  fun _ c hi hok => absurd hok (h c (List.getElem?_mem hi))

/-! ## Claims -/

/-- C6: the aggregator groups rows by the whitespace-stripped product key and
appends samples within a group in input order; in particular the two
`"Bacon "`/`"Bacon"` scenario rows collapse to the single key `"Bacon"` with
two entries in input order carrying counts 10 and 8. -/
theorem aggregate_groups_by_stripped_key_in_order :
    (∀ (rows : List Row) (k : Key),
        lookupSeries (aggregate rows) k =
          (rows.filter (fun r => pyStrip r.product == k)).map rowEntry) ∧
    aggregate [baconRow1, baconRow2] = [("Bacon", [entryB1, entryB2])] ∧
    entryB1.count = some 10 ∧ entryB2.count = some 8 := by
  refine ⟨fun rows k => ?_, rfl, rfl, rfl⟩
  simpa [lookupSeries] using lookupSeries_foldl rows [] k

/-- C7 counterexample: the claim says every missing/null numeric field is
coerced to `0.0`, but the `count` field (app.py line 85) is copied verbatim
with no null coercion: on a row whose fields are all NULL, the aggregated
entry's three averages are 0 while its `count` is still null. -/
theorem aggregate_null_count_propagates :
    aggregate [nullRow] =
      [("Bacon", [{ week_start := "2024-01-01", avg_overweight := 0
                    avg_value := 0, avg_target := 0, count := none }])] ∧
    (rowEntry nullRow).count ≠ some 0 :=
  ⟨rfl, by decide⟩

/-- C7 amended: for every row, each of the three average fields that is
missing/null is coerced to numeric zero, independently of the others, while
`count` is copied through unchanged on every row (so a null `count` stays
null in the output). -/
theorem aggregate_nulls_coerced_except_count (r : Row) :
    (r.avg_overweight = none → (rowEntry r).avg_overweight = 0) ∧
    (r.avg_value = none → (rowEntry r).avg_value = 0) ∧
    (r.avg_target = none → (rowEntry r).avg_target = 0) ∧
    (rowEntry r).count = r.count := by
  refine ⟨fun h1 => ?_, fun h2 => ?_, fun h3 => ?_, rfl⟩ <;>
    simp [rowEntry, coerceNum, *]

theorem aggregate_nulls_coerced_except_count_witness :
    (rowEntry nullRow).avg_overweight = 0 ∧ (rowEntry nullRow).avg_value = 0 ∧
    (rowEntry nullRow).avg_target = 0 ∧ (rowEntry nullRow).count = nullRow.count :=
  ⟨(aggregate_nulls_coerced_except_count nullRow).1 rfl,
   (aggregate_nulls_coerced_except_count nullRow).2.1 rfl,
   (aggregate_nulls_coerced_except_count nullRow).2.2.1 rfl,
   (aggregate_nulls_coerced_except_count nullRow).2.2.2⟩

/-- C1: when the fetch (or row processing) fails and the durable file exists
and parses, `refresh_cache` installs the persisted series, `refreshed_at`
and `product_count` with status `Stale` and the failure message in `error`;
the resulting status is never `Error`. -/
theorem refresh_fetchFail_fileParsed_stale (env : Env) (cache : Cache)
    (msg : String) (p : Persisted)
    (hf : env.fetch = .fail msg) (hp : env.file = .parsed p) :
    (refresh_cache env cache).1 =
      { data := some p.data, refreshed_at := some p.refreshed_at
        product_count := some p.product_count
        status := .stale, error := some msg } ∧
    (refresh_cache env cache).1.status ≠ CacheStatus.error := by
  simp [refresh_cache, hf, handleFailure, hp]

theorem refresh_fetchFail_fileParsed_stale_witness :
    (refresh_cache envC1 cache0).1 =
      { data := some pEmpty.data, refreshed_at := some pEmpty.refreshed_at
        product_count := some pEmpty.product_count
        status := .stale, error := some "boom" } ∧
    (refresh_cache envC1 cache0).1.status ≠ CacheStatus.error :=
  refresh_fetchFail_fileParsed_stale envC1 cache0 "boom" pEmpty rfl rfl

/-- C2 counterexample: the claim says the no-fallback failure state has an
empty series mapping (`data == {}`), but app.py line 111 stores
`"data": None` — a JSON null, not an empty mapping (and the HTTP handler
distinguishes the two: null data plus status error yields a 500). -/
theorem refresh_fetchFail_noFile_data_is_null :
    (refresh_cache envC2 cache0).1.data = none ∧
    (refresh_cache envC2 cache0).1.data ≠ some ([] : Series) :=
  ⟨rfl, by decide⟩

/-- C2 amended: when the fetch fails and no durable file exists,
`refresh_cache` installs `data` null (not an empty mapping), `refreshed_at`
none, status `Error`, and the failure message in `error`. -/
theorem refresh_fetchFail_noFile_error_nullData (env : Env) (cache : Cache)
    (msg : String) (hf : env.fetch = .fail msg) (ha : env.file = .absent) :
    (refresh_cache env cache).1 =
      { data := none, refreshed_at := none, product_count := none
        status := .error, error := some msg } := by
  simp [refresh_cache, hf, handleFailure, ha]

theorem refresh_fetchFail_noFile_error_nullData_witness :
    (refresh_cache envC2 cache0).1 =
      { data := none, refreshed_at := none, product_count := none
        status := .error, error := some "conn refused" } :=
  refresh_fetchFail_noFile_error_nullData envC2 cache0 "conn refused" rfl rfl

/-- C3 counterexample: the claim says a failed durable save is logged, not
raised, and the fresh snapshot is still installed with status `Ok`; but the
save of app.py lines 91-92 sits inside the same `try` as the fetch, so its
exception jumps to the `except` handler: with a parsable durable file the
cycle ends `Stale` with the (old) persisted data, not `Ok` with the freshly
aggregated series. -/
theorem refresh_saveFail_aborts_success :
    (refresh_cache envC3 cache0).1.status = CacheStatus.stale ∧
    (refresh_cache envC3 cache0).1.data ≠ some (aggregate [baconRow1]) :=
  ⟨rfl, by decide⟩

/-- C3 amended: when the fetch succeeds but the durable save raises, the
exception aborts the success path — the fresh `Ok` snapshot is never
installed; instead the generic failure handler runs: `Stale` with the
persisted data if the durable file parses, `Error` with null data if it is
absent, and an escaping parse exception (cache untouched) if it is
corrupt. -/
theorem refresh_saveFail_takes_fallback_path (env : Env) (cache : Cache)
    (rows : List Row) (smsg : String)
    (hf : env.fetch = .ok rows) (hs : env.saveFails = some smsg) :
    (∀ p, env.file = .parsed p →
        (refresh_cache env cache).1 =
          { data := some p.data, refreshed_at := some p.refreshed_at
            product_count := some p.product_count
            status := .stale, error := some smsg }) ∧
    (env.file = .absent →
        (refresh_cache env cache).1 =
          { data := none, refreshed_at := none, product_count := none
            status := .error, error := some smsg }) ∧
    (env.file = .corrupt →
        (refresh_cache env cache).1 = cache ∧
        (refresh_cache env cache).2.2 = Outcome.raisedCorrupt) := by
  refine ⟨fun p hp => ?_, fun ha => ?_, fun hc => ?_⟩ <;>
    simp [refresh_cache, hf, hs, handleFailure, *]

theorem refresh_saveFail_takes_fallback_path_witness :
    (refresh_cache envC3 cache0).1 =
      { data := some pEmpty.data, refreshed_at := some pEmpty.refreshed_at
        product_count := some pEmpty.product_count
        status := .stale, error := some "disk full" } :=
  (refresh_saveFail_takes_fallback_path envC3 cache0 [baconRow1]
    "disk full" rfl rfl).1 pEmpty rfl

/-- C4: in every `refresh_cache` execution, whenever the trace installs an
in-memory snapshot whose status is `Ok`, a completed durable save occurs
strictly earlier in the trace — no reader can observe the new `Ok` snapshot
before its durable copy has been attempted (app.py lines 88-95: the file
write precedes the locked `_cache` assignment). -/
theorem refresh_okSet_after_saveDone (env : Env) (cache : Cache) :
    saveBeforeOkSet (refresh_cache env cache).2.1 := by
  cases hf : env.fetch with
  | fail msg =>
      apply saveBeforeOkSet_of_no_okSet
      intro c hc
      cases hfile : env.file <;> simp_all [refresh_cache, handleFailure]
  | ok rows =>
      cases hs : env.saveFails with
      | some smsg =>
          apply saveBeforeOkSet_of_no_okSet
          intro c hc
          cases hfile : env.file <;> simp_all [refresh_cache, handleFailure]
      | none =>
          intro i c hi hok
          simp [refresh_cache, hf, hs] at hi ⊢
          rcases i with _ | _ | _ | _ | i
          · simp at hi
          · simp at hi
          · simp at hi
          · exact ⟨2, by omega, by simp⟩
          · simp at hi

theorem refresh_okSet_after_saveDone_witness :
    ∃ j : Nat, j < 3 ∧ ((refresh_cache envC4 cache0).2.1)[j]? = some Ev.saveDone :=
  refresh_okSet_after_saveDone envC4 cache0 3
    { data := some (aggregate [baconRow1])
      refreshed_at := some "2024-06-01T00:00:00Z"
      product_count := some (aggregate [baconRow1]).length
      status := .ok, error := none }
    rfl rfl

/-- C5 counterexample: when the fetch fails and the durable file exists but
is corrupt, the `json.load` of app.py line 105 raises inside the `except`
handler and the exception escapes `refresh_cache`: the in-memory snapshot
does not transition to `Error` (here it stays `initializing`), contrary to
the claim that the parse failure is absorbed into the `Error` state. -/
theorem refresh_corruptFile_raises :
    (refresh_cache envC5 cache0).2.2 = Outcome.raisedCorrupt ∧
    (refresh_cache envC5 cache0).1.status ≠ CacheStatus.error ∧
    (refresh_cache envC5 cache0).1 = cache0 :=
  ⟨rfl, by decide, rfl⟩

/-- C5 amended: when the fetch fails and the durable file exists but fails
to parse, the parse exception escapes `refresh_cache` — the refresh task
raises, the in-memory snapshot is left exactly as it was (no transition to
`Error`), and no retry occurs within the cycle. -/
theorem refresh_corruptFile_escapes (env : Env) (cache : Cache) (msg : String)
    (hf : env.fetch = .fail msg) (hc : env.file = .corrupt) :
    (refresh_cache env cache).1 = cache ∧
    (refresh_cache env cache).2.2 = Outcome.raisedCorrupt := by
  simp [refresh_cache, hf, handleFailure, hc]

theorem refresh_corruptFile_escapes_witness :
    (refresh_cache envC5 cache0).1 = cache0 ∧
    (refresh_cache envC5 cache0).2.2 = Outcome.raisedCorrupt :=
  refresh_corruptFile_escapes envC5 cache0 "boom" rfl rfl

/-- C8: `GET /api/overweights` answers 202 while the cache is initializing,
500 when the status is error and no data is present, and otherwise (stale
included) 200 with a body carrying `status`, `refreshed_at`,
`product_count` (defaulting to 0), `cache_status`, and the series mapping
as `data`. -/
theorem overweights_status_codes (c : Cache) :
    (c.status = CacheStatus.initializing → respCode (overweights c) = 202) ∧
    (c.status = CacheStatus.error → c.data = none →
        respCode (overweights c) = 500) ∧
    (c.status ≠ CacheStatus.initializing →
        ¬ (c.status = CacheStatus.error ∧ c.data = none) →
        overweights c =
          Resp.okResp "ok" c.refreshed_at (c.product_count.getD 0)
            c.status.toStr c.data) := by
  refine ⟨fun h1 => ?_, fun h1 h2 => ?_, fun h1 h2 => ?_⟩
  · simp [overweights, h1, respCode]
  · simp [overweights, h1, h2, respCode]
  · simp [overweights, h1, h2]

theorem overweights_status_codes_witness :
    overweights staleCache =
      Resp.okResp "ok" staleCache.refreshed_at
        (staleCache.product_count.getD 0) staleCache.status.toStr
        staleCache.data :=
  (overweights_status_codes staleCache).2.2 (by decide) (by decide)

/-- C10: whenever `GET /api/overweights` answers 200, the top-level `status`
field of the body is the literal string `"ok"` — even when the snapshot
served is the stale durable fallback, whose staleness is visible only in
the separate `cache_status` field. -/
theorem overweights_200_top_status_ok (c : Cache) :
    (respCode (overweights c) = 200 → respTopStatus (overweights c) = "ok") ∧
    (c.status = CacheStatus.stale →
        respCode (overweights c) = 200 ∧
        overweights c =
          Resp.okResp "ok" c.refreshed_at (c.product_count.getD 0)
            "stale" c.data) := by
  constructor
  · intro h
    by_cases h1 : c.status = CacheStatus.initializing
    · simp [overweights, h1, respCode] at h
    · by_cases h2 : c.status = CacheStatus.error ∧ c.data = none
      · simp [overweights, h1, h2, respCode] at h
      · simp [overweights, h1, h2, respTopStatus]
  · intro hs
    have h1 : ¬ c.status = CacheStatus.initializing := by simp [hs]
    have h2 : ¬ (c.status = CacheStatus.error ∧ c.data = none) := by
      simp [hs]
    simp [overweights, h1, h2, respCode, hs, CacheStatus.toStr]

theorem overweights_200_top_status_ok_witness :
    respTopStatus (overweights staleCache) = "ok" :=
  (overweights_200_top_status_ok staleCache).1 rfl

/-- C9 counterexample: the save of app.py lines 91-92 opens the target file
with mode `"w"`, truncating it in place before writing, so between the
truncate and the completed write a concurrent or post-crash reader
observes the empty file — neither the old nor the new content.  The write
is therefore not an atomic whole-file replace. -/
theorem save_not_atomic :
    ¬ atomicWrt "old" "new" (observableStates "old" (save_ops "new")) := by
  intro h
  rcases h "" (by simp [observableStates, save_ops, applyOp]) with h' | h' <;>
    exact absurd h' (by decide)

/-- C9 amended: the durable save is an in-place truncate-then-write of the
target file, not a write-complete-then-replace: the observable contents
during a save are the old file, then the empty file, then the payload, and
the operation sequence contains no whole-file rename/replace — so an
interrupted or concurrently-read save can expose a partially-written
file. -/
theorem save_truncates_in_place (old payload : String) :
    observableStates old (save_ops payload) = [old, "", payload] ∧
    (save_ops payload).all (fun op => !(isRename op)) = true := by
  refine ⟨?_, rfl⟩
  simp [observableStates, save_ops, applyOp]
